import Mathlib

/-!
Verification of the swipe-detection state machine of `src/motion_detection.py`
(class `MotionDetector`).

Modelling choices:
* Wall-clock time (`time.time()`) is injected as an explicit `now : Rat`
  argument; a single `detect_swipe` call uses one time value for both the
  debounce check and the recorded trigger time.
* `collections.deque(maxlen=n)` is a bounded list whose `append` evicts the
  oldest (leftmost) element when full.
* Pixel coordinates are `Int`, the detector state flag is the literal string
  stored by the Python code (`"READY"` / `"COOLDOWN"`).
* `round(r, 1)` is modelled through the integer number of tenths
  (`round (10 * r) : Int`); Python's `max(0, round(remain, 1))` returns the
  `int` `0` whenever the rounded float is `≤ 0`, which renders as `"0"`,
  otherwise the one-decimal float rendering `"<int>.<tenth>"`.
-/

/-- Append one element to a Python `collections.deque` with `maxlen`:
the new element goes to the right and, if capacity is exceeded, the
oldest (leftmost) elements are dropped. -/
def dequeAppend (maxlen : Nat) (t : List Int) (x : Int) : List Int :=
  let t2 := t ++ [x]
  if maxlen < t2.length then t2.drop (t2.length - maxlen) else t2

/-- The mutable state of `MotionDetector` (`__init__`, lines 17-31) together
with its immutable configuration. -/
structure MotionDetector where
  min_distance : Int
  debounce_time : Rat
  max_trajectory_length : Nat
  trajectory : List Int
  last_trigger_time : Rat
  state : String
  deriving Repr, DecidableEq

/-- The constructor `MotionDetector.__init__`: empty trajectory,
`last_trigger_time = 0`, state `"READY"`. -/
def MotionDetector.init (min_distance : Int) (debounce_time : Rat)
    (max_trajectory_length : Nat) : MotionDetector :=
  { min_distance := min_distance
    debounce_time := debounce_time
    max_trajectory_length := max_trajectory_length
    trajectory := []
    last_trigger_time := 0
    state := "READY" }

/-- `MotionDetector._can_trigger` (lines 94-102).  Returns the boolean result
together with the (possibly updated) detector, since the lazy
`COOLDOWN → READY` transition writes `self.state`. -/
def MotionDetector.can_trigger (d : MotionDetector) (now : Rat) :
    Bool × MotionDetector :=
  if d.state = "READY" then (true, d)
  else if now - d.last_trigger_time > d.debounce_time then
    (true, { d with state := "READY" })
  else (false, d)

/-- `MotionDetector._trigger` (lines 104-106). -/
def MotionDetector.trigger (d : MotionDetector) (now : Rat) : MotionDetector :=
  { d with state := "COOLDOWN", last_trigger_time := now }

/-- `MotionDetector.detect_swipe` (lines 36-78): append the sample, check the
minimum length (5), the displacement threshold, the debounce machine; on an
accepted trigger clear the trajectory and return the hand-corrected
direction. -/
def MotionDetector.detect_swipe (d : MotionDetector) (now : Rat)
    (current_x : Int) (is_right_hand : Bool) :
    Option String × MotionDetector :=
  let d1 : MotionDetector :=
    { d with trajectory := dequeAppend d.max_trajectory_length d.trajectory current_x }
  if d1.trajectory.length < 5 then (none, d1)
  else
    let x_start := d1.trajectory.head?.getD 0
    let x_end := d1.trajectory.getLast?.getD 0
    let delta_x := x_end - x_start
    if |delta_x| < d1.min_distance then (none, d1)
    else
      let p := d1.can_trigger now
      if p.1 then
        let d2 := (p.2.trigger now)
        let d3 : MotionDetector := { d2 with trajectory := [] }
        let gesture := if delta_x > 0 then "right" else "left"
        let gesture2 :=
          if is_right_hand then gesture
          else if gesture = "right" then "left" else "right"
        (some gesture2, d3)
      else (none, p.2)

/-- Rendering of `max(0, round(remain, 1))` from the number of tenths:
Python's `max(0, ...)` yields the `int` `0` when the rounded float is not
positive (printed `"0"`), otherwise the float keeps one decimal digit. -/
def formatRemain (tenths : Int) : String :=
  if tenths ≤ 0 then "0"
  else toString (tenths / 10) ++ "." ++ toString (tenths % 10)

/-- `MotionDetector.get_status` (lines 83-89).  The Python method performs no
assignment, which the embedding records by returning the detector unchanged
as the second component. -/
def MotionDetector.get_status (d : MotionDetector) (now : Rat) :
    String × MotionDetector :=
  if d.state = "READY" then ("READY", d)
  else
    let remain := d.debounce_time - (now - d.last_trigger_time)
    let tenths : Int := round (10 * remain)
    ("Ready in " ++ formatRemain tenths ++ "s", d)

/-- Feeding a list of `(now, current_x, is_right_hand)` observations to the
detector in sequence, collecting the outputs. -/
def MotionDetector.run (d : MotionDetector) (inputs : List (Rat × Int × Bool)) :
    List (Option String) × MotionDetector :=
  match inputs with
  | [] => ([], d)
  | i :: rest =>
    let p := d.detect_swipe i.1 i.2.1 i.2.2
    let q := p.2.run rest
    (p.1 :: q.1, q.2)

/-- The buffer as it stands right after the `append` in `detect_swipe`. -/
def MotionDetector.appended (d : MotionDetector) (x : Int) : List Int :=
  dequeAppend d.max_trajectory_length d.trajectory x

/-- The first-to-last displacement of the appended buffer
(`trajectory[-1] - trajectory[0]`). -/
def MotionDetector.delta (d : MotionDetector) (x : Int) : Int :=
  (d.appended x).getLast?.getD 0 - (d.appended x).head?.getD 0

/-- The direction string computed by lines 68-76 of the source. -/
def swipeGesture (delta_x : Int) (is_right_hand : Bool) : String :=
  let gesture := if 0 < delta_x then "right" else "left"
  if is_right_hand then gesture
  else if gesture = "right" then "left" else "right"

/-! ### Concrete scenario states used by the witnesses -/

/-- The detector of scenario A: `min_distance = 66`, `debounce_time = 2`,
capacity 30, freshly constructed. -/
def demoDetector : MotionDetector := MotionDetector.init 66 2 30

/-- The detector holding the first four samples of scenario A. -/
def demoWarm : MotionDetector := { demoDetector with trajectory := [100, 120, 140, 160] }

/-- The detector right after scenario A's accepted trigger at time 10. -/
def demoCooldown : MotionDetector := (demoWarm.detect_swipe 10 200 true).2

/-- Five further samples fed during the cooldown window (all within
`debounce_time = 2` of the trigger at time 10). -/
def demoCooldownInputs : List (Rat × Int × Bool) :=
  [(10, 300, true), (11, 10, true), (11, 400, true), (11, 450, true), (11, 500, true)]

/-- A detector in cooldown (trigger recorded at time 10) whose buffer already
holds four samples with a large spread. -/
def demoSuppressed : MotionDetector :=
  { demoDetector with
    trajectory := [300, 10, 400, 450]
    state := "COOLDOWN"
    last_trigger_time := 10 }

/-- A detector whose ring buffer is exactly at a capacity of 5. -/
def demoFull : MotionDetector :=
  { demoDetector with max_trajectory_length := 5, trajectory := [1, 2, 3, 4, 5] }

/-- A detector in cooldown with an empty buffer, trigger recorded at time 0. -/
def demoStatusCooldown : MotionDetector :=
  { demoDetector with state := "COOLDOWN", last_trigger_time := 0 }

/-! ### Helper lemmas -/

theorem length_dequeAppend (m : Nat) (t : List Int) (x : Int) :
    (dequeAppend m t x).length = min (t.length + 1) m := by
  simp only [dequeAppend]
  split
  · rename_i hlt
    simp only [List.length_drop, List.length_append, List.length_singleton] at hlt ⊢
    omega
  · rename_i hlt
    simp only [List.length_append, List.length_singleton] at hlt ⊢
    omega

theorem dequeAppend_of_lt (m : Nat) (t : List Int) (x : Int)
    (h : t.length + 1 ≤ m) : dequeAppend m t x = t ++ [x] := by
  simp only [dequeAppend]
  split
  · rename_i hlt
    exfalso
    simp only [List.length_append, List.length_singleton] at hlt
    omega
  · rfl

theorem dequeAppend_at_capacity (m : Nat) (t : List Int) (x : Int)
    (h : t.length = m) (hm : 0 < m) :
    dequeAppend m t x = t.drop 1 ++ [x] := by
  simp only [dequeAppend]
  have h1 : m < (t ++ [x]).length := by simp [h]
  rw [if_pos h1]
  have h2 : (t ++ [x]).length - m = 1 := by simp [h]
  rw [h2, List.drop_append_of_le_length (by omega)]

theorem can_trigger_ready (d : MotionDetector) (now : Rat)
    (hs : d.state = "READY") : d.can_trigger now = (true, d) := by
  simp [MotionDetector.can_trigger, hs]

theorem can_trigger_cooldown (d : MotionDetector) (now : Rat)
    (hs : d.state ≠ "READY")
    (ht : now - d.last_trigger_time ≤ d.debounce_time) :
    d.can_trigger now = (false, d) := by
  simp [MotionDetector.can_trigger, hs, not_lt.mpr ht]

theorem can_trigger_elapsed (d : MotionDetector) (now : Rat)
    (ht : d.debounce_time < now - d.last_trigger_time) :
    d.can_trigger now = (true, { d with state := "READY" }) := by
  by_cases hs : d.state = "READY"
  · cases d
    simp_all [MotionDetector.can_trigger]
  · simp [MotionDetector.can_trigger, hs, ht]

/-- The first two guards: if the buffer after the append is shorter than 5 or
its first-to-last displacement is below the threshold, the call returns
`none` and only the trajectory changes. -/
theorem detect_swipe_reject (d : MotionDetector) (now : Rat) (x : Int) (b : Bool)
    (h : (d.appended x).length < 5 ∨ |d.delta x| < d.min_distance) :
    d.detect_swipe now x b = (none, { d with trajectory := d.appended x }) := by
  simp only [MotionDetector.appended, MotionDetector.delta] at h
  rcases h with h | h
  · simp [MotionDetector.detect_swipe, MotionDetector.appended, h]
  · simp [MotionDetector.detect_swipe, MotionDetector.appended, h]

/-- A call made in `COOLDOWN` before the debounce time has elapsed returns
`none` and leaves everything but the trajectory unchanged. -/
theorem detect_swipe_suppressed (d : MotionDetector) (now : Rat) (x : Int) (b : Bool)
    (hs : d.state ≠ "READY")
    (ht : now - d.last_trigger_time ≤ d.debounce_time) :
    d.detect_swipe now x b = (none, { d with trajectory := d.appended x }) := by
  simp [MotionDetector.detect_swipe, MotionDetector.can_trigger, MotionDetector.appended,
    hs, not_lt.mpr ht]

/-- An accepted trigger: buffer long enough, threshold met, machine
triggerable (`READY`, or `COOLDOWN` with the debounce time elapsed).  The
call returns the hand-corrected direction and the post-state has an empty
trajectory, state `"COOLDOWN"` and `last_trigger_time = now`. -/
theorem detect_swipe_accept (d : MotionDetector) (now : Rat) (x : Int) (b : Bool)
    (hlen : 5 ≤ (d.appended x).length)
    (hth : d.min_distance ≤ |d.delta x|)
    (hcan : d.state = "READY" ∨ d.debounce_time < now - d.last_trigger_time) :
    d.detect_swipe now x b =
      (some (swipeGesture (d.delta x) b),
       { d with trajectory := [], state := "COOLDOWN", last_trigger_time := now }) := by
  simp only [MotionDetector.appended, MotionDetector.delta] at hlen hth
  rcases hcan with hc | hc
  · simp [MotionDetector.detect_swipe, MotionDetector.can_trigger, MotionDetector.trigger,
      MotionDetector.appended, MotionDetector.delta, swipeGesture,
      not_lt.mpr hlen, not_lt.mpr hth, hc]
  · by_cases hR : d.state = "READY"
    · simp [MotionDetector.detect_swipe, MotionDetector.can_trigger, MotionDetector.trigger,
        MotionDetector.appended, MotionDetector.delta, swipeGesture,
        not_lt.mpr hlen, not_lt.mpr hth, hR]
    · simp [MotionDetector.detect_swipe, MotionDetector.can_trigger, MotionDetector.trigger,
        MotionDetector.appended, MotionDetector.delta, swipeGesture,
        not_lt.mpr hlen, not_lt.mpr hth, hR, hc]

/-- `detect_swipe` never changes the configuration fields. -/
theorem detect_swipe_config (d : MotionDetector) (now : Rat) (x : Int) (b : Bool) :
    (d.detect_swipe now x b).2.min_distance = d.min_distance
    ∧ (d.detect_swipe now x b).2.debounce_time = d.debounce_time
    ∧ (d.detect_swipe now x b).2.max_trajectory_length = d.max_trajectory_length := by
  by_cases h1 : (d.appended x).length < 5 ∨ |d.delta x| < d.min_distance
  · rw [detect_swipe_reject d now x b h1]
    exact ⟨rfl, rfl, rfl⟩
  · push_neg at h1
    by_cases h2 : d.state = "READY" ∨ d.debounce_time < now - d.last_trigger_time
    · rw [detect_swipe_accept d now x b h1.1 h1.2 h2]
      exact ⟨rfl, rfl, rfl⟩
    · push_neg at h2
      rw [detect_swipe_suppressed d now x b h2.1 h2.2]
      exact ⟨rfl, rfl, rfl⟩


/-- A call that returns `some` can only come from the accepted-trigger branch;
this recovers the branch conditions and the exact post-state. -/
theorem detect_swipe_some (d : MotionDetector) (now : Rat) (x : Int) (b : Bool)
    (g : String) (d1 : MotionDetector)
    (h : d.detect_swipe now x b = (some g, d1)) :
    5 ≤ (d.appended x).length
    ∧ d.min_distance ≤ |d.delta x|
    ∧ (d.state = "READY" ∨ d.debounce_time < now - d.last_trigger_time)
    ∧ g = swipeGesture (d.delta x) b
    ∧ d1 = { d with trajectory := [], state := "COOLDOWN", last_trigger_time := now } := by
  by_cases h1 : (d.appended x).length < 5 ∨ |d.delta x| < d.min_distance
  · rw [detect_swipe_reject d now x b h1] at h
    simp at h
  · push_neg at h1
    by_cases h2 : d.state = "READY" ∨ d.debounce_time < now - d.last_trigger_time
    · rw [detect_swipe_accept d now x b h1.1 h1.2 h2] at h
      have hg : some (swipeGesture (d.delta x) b) = some g := congrArg Prod.fst h
      have hd : d1 = { d with trajectory := [], state := "COOLDOWN", last_trigger_time := now } :=
        (congrArg Prod.snd h).symm
      exact ⟨h1.1, h1.2, h2, (Option.some.injEq _ _ ▸ hg).symm, hd⟩
    · push_neg at h2
      rw [detect_swipe_suppressed d now x b h2.1 h2.2] at h
      simp at h

/-- The trajectory after a call is either the appended buffer or
(on an accepted trigger) empty. -/
theorem detect_swipe_traj_cases (d : MotionDetector) (now : Rat) (x : Int) (b : Bool) :
    (d.detect_swipe now x b).2.trajectory = d.appended x
    ∨ (d.detect_swipe now x b).2.trajectory = [] := by
  by_cases h1 : (d.appended x).length < 5 ∨ |d.delta x| < d.min_distance
  · rw [detect_swipe_reject d now x b h1]
    exact Or.inl rfl
  · push_neg at h1
    by_cases h2 : d.state = "READY" ∨ d.debounce_time < now - d.last_trigger_time
    · rw [detect_swipe_accept d now x b h1.1 h1.2 h2]
      exact Or.inr rfl
    · push_neg at h2
      rw [detect_swipe_suppressed d now x b h2.1 h2.2]
      exact Or.inl rfl

/-- One call grows the trajectory by at most one element. -/
theorem detect_swipe_traj_le (d : MotionDetector) (now : Rat) (x : Int) (b : Bool) :
    (d.detect_swipe now x b).2.trajectory.length ≤ d.trajectory.length + 1 := by
  rcases detect_swipe_traj_cases d now x b with hc | hc <;> rw [hc]
  · rw [MotionDetector.appended, length_dequeAppend]
    omega
  · simp

/-- If the detector starts with few enough buffered samples, a short run of
calls can never reach the minimum length of 5, so every output is `none`. -/
theorem run_none_of_short (d : MotionDetector) (inputs : List (Rat × Int × Bool))
    (h : d.trajectory.length + inputs.length ≤ 4) :
    ∀ o ∈ (d.run inputs).1, o = none := by
  induction inputs generalizing d with
  | nil =>
    intro o ho
    simp [MotionDetector.run] at ho
  | cons i rest ih =>
    intro o ho
    simp only [MotionDetector.run, List.mem_cons] at ho
    rcases ho with ho | ho
    · subst ho
      have hlen : (d.appended i.2.1).length < 5 := by
        rw [MotionDetector.appended, length_dequeAppend]
        simp only [List.length_cons] at h
        omega
      rw [detect_swipe_reject d i.1 i.2.1 i.2.2 (Or.inl hlen)]
    · refine ih (d.detect_swipe i.1 i.2.1 i.2.2).2 ?_ o ho
      have := detect_swipe_traj_le d i.1 i.2.1 i.2.2
      simp only [List.length_cons] at h
      omega

/-- During cooldown (state not `"READY"`, elapsed time within the debounce
window at every call) a whole run of calls outputs only `none` and leaves the
state flag, trigger time and configuration untouched. -/
theorem run_suppressed (d : MotionDetector) (inputs : List (Rat × Int × Bool))
    (hs : d.state ≠ "READY")
    (hin : ∀ i ∈ inputs, i.1 - d.last_trigger_time ≤ d.debounce_time) :
    (∀ o ∈ (d.run inputs).1, o = none)
    ∧ (d.run inputs).2.state = d.state
    ∧ (d.run inputs).2.last_trigger_time = d.last_trigger_time
    ∧ (d.run inputs).2.debounce_time = d.debounce_time
    ∧ (d.run inputs).2.min_distance = d.min_distance
    ∧ (d.run inputs).2.max_trajectory_length = d.max_trajectory_length := by
  induction inputs generalizing d with
  | nil =>
    refine ⟨?_, rfl, rfl, rfl, rfl, rfl⟩
    intro o ho
    simp [MotionDetector.run] at ho
  | cons i rest ih =>
    have hcall := detect_swipe_suppressed d i.1 i.2.1 i.2.2 hs
      (hin i (List.mem_cons_self i rest))
    have hrest := ih ({ d with trajectory := d.appended i.2.1 }) (by simpa using hs)
      (by intro j hj; simpa using hin j (List.mem_cons_of_mem i hj))
    constructor
    · intro o ho
      simp only [MotionDetector.run, hcall, List.mem_cons] at ho
      rcases ho with ho | ho
      · exact ho
      · exact hrest.1 o ho
    · simp only [MotionDetector.run, hcall]
      exact hrest.2

theorem round_le_round_of_le {x y : Rat} (h : x ≤ y) : round x ≤ round y := by
  rw [round_eq, round_eq]
  exact Int.floor_le_floor (by linarith)

theorem round_tenths_nonpos {r : Rat} (h : r ≤ 0) : round (10 * r) ≤ 0 := by
  have h1 : (10 : Rat) * r ≤ 0 := by linarith
  have := round_le_round_of_le h1
  simpa using this

/-- The rendered remaining time agrees whether `max 0` is applied before or
after the rounding (Python takes `max(0, round(remain, 1))`, the spec states
`max(0, remain)` rounded). -/
theorem formatRemain_max_comm (r : Rat) :
    formatRemain (round (10 * r)) = formatRemain (round (10 * max 0 r)) := by
  rcases le_total r 0 with h | h
  · rw [max_eq_left h]
    have h1 := round_tenths_nonpos h
    have h2 : round ((10 : Rat) * 0) ≤ 0 := by norm_num
    rw [formatRemain, formatRemain, if_pos h1, if_pos h2]
  · rw [max_eq_right h]

/-! ### Claims -/

/-- C2: for every detector state and every input, if the absolute difference
between the last and first elements of the trajectory buffer after appending
the new `x` is strictly less than `min_distance`, `detect_swipe` returns
`none` and does not trigger (state flag and trigger time are unchanged). -/
theorem threshold_property (d : MotionDetector) (now : Rat) (x : Int) (b : Bool)
    (h : |d.delta x| < d.min_distance) :
    (d.detect_swipe now x b).1 = none
    ∧ (d.detect_swipe now x b).2.state = d.state
    ∧ (d.detect_swipe now x b).2.last_trigger_time = d.last_trigger_time := by
  rw [detect_swipe_reject d now x b (Or.inr h)]
  exact ⟨rfl, rfl, rfl⟩

theorem threshold_property_witness :
    (demoDetector.detect_swipe 0 5 true).1 = none
    ∧ (demoDetector.detect_swipe 0 5 true).2.state = demoDetector.state
    ∧ (demoDetector.detect_swipe 0 5 true).2.last_trigger_time
        = demoDetector.last_trigger_time :=
  threshold_property demoDetector 0 5 true (by decide)

/-- C3: starting from an empty trajectory (construction or a fresh clear),
any run of fewer than 5 `detect_swipe` calls returns `none` every time,
regardless of the displacement the samples exhibit. -/
theorem min_samples_property (d : MotionDetector) (inputs : List (Rat × Int × Bool))
    (hd : d.trajectory = []) (hn : inputs.length < 5) :
    ∀ o ∈ (d.run inputs).1, o = none := by
  refine run_none_of_short d inputs ?_
  rw [hd]
  simpa using Nat.lt_succ_iff.mp hn

theorem min_samples_property_witness :
    ((demoDetector.run
        [(0, 0, true), (0, 1000, true), (0, 2000, true), (0, 3000, true)]).1).getD 3
        (some "right")
      = none :=
  min_samples_property demoDetector
    [(0, 0, true), (0, 1000, true), (0, 2000, true), (0, 3000, true)]
    rfl (by decide) _ (by decide)

/-- C4: an accepted trigger returns `"right"` when `delta > 0` and `"left"`
otherwise, inverted for a left hand, so calls with identical geometry and
opposite handedness yield opposite directions; concretely, with
`min_distance = 66` and samples `[100, 120, 140, 160, 200]` the fifth call
returns `"right"` for a right hand and `"left"` for a left hand. -/
theorem direction_correction (d : MotionDetector) (now : Rat) (x : Int) (b : Bool) :
    ((d.detect_swipe now x b).1 = none
      ∨ (d.detect_swipe now x b).1
          = some (swipeGesture (d.delta x) b))
    ∧ (d.detect_swipe now x false).1
        = Option.map (fun g => if g = "right" then "left" else "right")
            ((d.detect_swipe now x true).1)
    ∧ ((MotionDetector.init 66 2 30).run
          [(0, 100, true), (0, 120, true), (0, 140, true), (0, 160, true), (0, 200, true)]).1
        = [none, none, none, none, some "right"]
    ∧ ((MotionDetector.init 66 2 30).run
          [(0, 100, false), (0, 120, false), (0, 140, false), (0, 160, false), (0, 200, false)]).1
        = [none, none, none, none, some "left"] := by
  refine ⟨?_, ?_, by decide, by decide⟩
  · by_cases h1 : (d.appended x).length < 5 ∨ |d.delta x| < d.min_distance
    · rw [detect_swipe_reject d now x b h1]
      exact Or.inl rfl
    · push_neg at h1
      by_cases h2 : d.state = "READY" ∨ d.debounce_time < now - d.last_trigger_time
      · rw [detect_swipe_accept d now x b h1.1 h1.2 h2]
        exact Or.inr rfl
      · push_neg at h2
        rw [detect_swipe_suppressed d now x b h2.1 h2.2]
        exact Or.inl rfl
  · by_cases h1 : (d.appended x).length < 5 ∨ |d.delta x| < d.min_distance
    · rw [detect_swipe_reject d now x false h1, detect_swipe_reject d now x true h1]
      rfl
    · push_neg at h1
      by_cases h2 : d.state = "READY" ∨ d.debounce_time < now - d.last_trigger_time
      · rw [detect_swipe_accept d now x false h1.1 h1.2 h2,
          detect_swipe_accept d now x true h1.1 h1.2 h2]
        by_cases hδ : 0 < d.delta x <;> simp [swipeGesture, hδ]
      · push_neg at h2
        rw [detect_swipe_suppressed d now x false h2.1 h2.2,
          detect_swipe_suppressed d now x true h2.1 h2.2]
        rfl

/-- C5: a call that returns a direction leaves the trajectory empty, so the
very next call returns `none` whatever its sample value (the buffer then
holds a single sample, below the minimum of 5). -/
theorem buffer_reset_property (d : MotionDetector) (now : Rat) (x : Int) (b : Bool)
    (g : String) (d1 : MotionDetector)
    (h : d.detect_swipe now x b = (some g, d1)) :
    d1.trajectory = []
    ∧ ∀ now2 x2 b2, (d1.detect_swipe now2 x2 b2).1 = none := by
  obtain ⟨-, -, -, -, hd1⟩ := detect_swipe_some d now x b g d1 h
  subst hd1
  refine ⟨rfl, ?_⟩
  intro now2 x2 b2
  have hlen : (({ d with
      trajectory := []
      state := "COOLDOWN"
      last_trigger_time := now } : MotionDetector).appended x2).length < 5 := by
    rw [MotionDetector.appended, length_dequeAppend]
    simp
  rw [detect_swipe_reject _ now2 x2 b2 (Or.inl hlen)]

theorem buffer_reset_property_witness :
    demoCooldown.trajectory = []
    ∧ (demoCooldown.detect_swipe 10 205 true).1 = none := by
  have h := buffer_reset_property demoWarm 10 200 true "right" demoCooldown (by decide)
  exact ⟨h.1, h.2 10 205 true⟩

/-- C6: a call suppressed by the debounce check (buffer long enough and over
the threshold, but the machine not triggerable) returns `none`, keeps the
appended sample in the trajectory, and leaves `last_trigger_time` and the
state flag unchanged, so a suppressed attempt does not extend the cooldown. -/
theorem suppressed_frame_effect (d : MotionDetector) (now : Rat) (x : Int) (b : Bool)
    (_hlen : 5 ≤ (d.appended x).length)
    (_hth : d.min_distance ≤ |d.delta x|)
    (hs : d.state ≠ "READY")
    (ht : now - d.last_trigger_time ≤ d.debounce_time) :
    (d.detect_swipe now x b).1 = none
    ∧ (d.detect_swipe now x b).2.trajectory = d.appended x
    ∧ (d.detect_swipe now x b).2.last_trigger_time = d.last_trigger_time
    ∧ (d.detect_swipe now x b).2.state = d.state := by
  rw [detect_swipe_suppressed d now x b hs ht]
  exact ⟨rfl, rfl, rfl, rfl⟩

theorem suppressed_frame_effect_witness :
    (demoSuppressed.detect_swipe 11 1000 true).1 = none
    ∧ (demoSuppressed.detect_swipe 11 1000 true).2.trajectory
        = demoSuppressed.appended 1000
    ∧ (demoSuppressed.detect_swipe 11 1000 true).2.last_trigger_time
        = demoSuppressed.last_trigger_time
    ∧ (demoSuppressed.detect_swipe 11 1000 true).2.state = demoSuppressed.state :=
  suppressed_frame_effect demoSuppressed 11 1000 true
    (by decide) (by decide) (by decide)
    (by norm_num [demoSuppressed, demoDetector, MotionDetector.init])

/-- C7: the trajectory length never exceeds the configured capacity, an
append at capacity evicts the oldest element first, and the read-only status
query also keeps the invariant. -/
theorem capacity_invariant (d : MotionDetector) (now : Rat) (x : Int) (b : Bool)
    (h : d.trajectory.length ≤ d.max_trajectory_length) :
    (d.detect_swipe now x b).2.trajectory.length ≤ d.max_trajectory_length
    ∧ (d.trajectory.length = d.max_trajectory_length → 0 < d.max_trajectory_length →
        d.appended x = d.trajectory.drop 1 ++ [x])
    ∧ (d.get_status now).2.trajectory = d.trajectory := by
  refine ⟨?_, ?_, ?_⟩
  · rcases detect_swipe_traj_cases d now x b with hc | hc <;> rw [hc]
    · rw [MotionDetector.appended, length_dequeAppend]
      omega
    · simp
  · intro he hm
    rw [MotionDetector.appended]
    exact dequeAppend_at_capacity _ _ _ he hm
  · by_cases hR : d.state = "READY" <;> simp [MotionDetector.get_status, hR]

theorem capacity_invariant_witness :
    (demoFull.detect_swipe 0 6 true).2.trajectory.length ≤ demoFull.max_trajectory_length
    ∧ demoFull.appended 6 = [2, 3, 4, 5, 6] := by
  have h := capacity_invariant demoFull 0 6 true (by decide)
  refine ⟨h.1, ?_⟩
  rw [h.2.1 (by decide) (by decide)]
  decide

/-- C1: after an accepted trigger at `now1`, every call of a run whose times
all stay strictly within `debounce_time` of `now1` returns `none` (so at most
one of the two calls yields a direction and the later one is suppressed), the
machine stays in `COOLDOWN`; and once the elapsed time strictly exceeds
`debounce_time`, a call whose buffer meets the minimum-sample and threshold
conditions returns a direction again. -/
theorem debounce_property (d : MotionDetector) (now1 : Rat) (x1 : Int) (b1 : Bool)
    (g : String) (d1 : MotionDetector)
    (h1 : d.detect_swipe now1 x1 b1 = (some g, d1))
    (inputs : List (Rat × Int × Bool))
    (hin : ∀ i ∈ inputs, i.1 - now1 < d.debounce_time) :
    (∀ o ∈ (d1.run inputs).1, o = none)
    ∧ (d1.run inputs).2.state = "COOLDOWN"
    ∧ (∀ now3 x3 b3,
        d.debounce_time < now3 - now1 →
        5 ≤ ((d1.run inputs).2.appended x3).length →
        (d1.run inputs).2.min_distance ≤ |(d1.run inputs).2.delta x3| →
        ((d1.run inputs).2.detect_swipe now3 x3 b3).1
          = some (swipeGesture ((d1.run inputs).2.delta x3) b3)) := by
  obtain ⟨-, -, -, -, hd1⟩ := detect_swipe_some d now1 x1 b1 g d1 h1
  have hx : ("COOLDOWN" : String) ≠ "READY" := by decide
  have hs1 : d1.state ≠ "READY" := by rw [hd1]; exact hx
  have hs2 : d1.state = "COOLDOWN" := by rw [hd1]
  have hl1 : d1.last_trigger_time = now1 := by rw [hd1]
  have hb1 : d1.debounce_time = d.debounce_time := by rw [hd1]
  have hrun := run_suppressed d1 inputs hs1
    (by intro i hi; rw [hl1, hb1]; exact le_of_lt (hin i hi))
  refine ⟨hrun.1, by rw [hrun.2.1, hs2], ?_⟩
  intro now3 x3 b3 hel hlen hth
  have hel2 : (d1.run inputs).2.debounce_time
      < now3 - (d1.run inputs).2.last_trigger_time := by
    rw [hrun.2.2.2.1, hb1, hrun.2.2.1, hl1]
    exact hel
  rw [detect_swipe_accept _ now3 x3 b3 hlen hth (Or.inr hel2)]

theorem debounce_property_witness :
    ((demoCooldown.run demoCooldownInputs).1.getD 0 (some "w")) = none
    ∧ (demoCooldown.run demoCooldownInputs).2.state = "COOLDOWN"
    ∧ ((demoCooldown.run demoCooldownInputs).2.detect_swipe 13 1000 true).1
        = some (swipeGesture ((demoCooldown.run demoCooldownInputs).2.delta 1000) true) := by
  have hx : ("COOLDOWN" : String) ≠ "READY" := by decide
  have hin : ∀ i ∈ demoCooldownInputs, i.1 - 10 < demoWarm.debounce_time := by
    intro i hi
    fin_cases hi <;> norm_num [demoWarm, demoDetector, MotionDetector.init]
  have h := debounce_property demoWarm 10 200 true "right" demoCooldown (by decide)
    demoCooldownInputs hin
  refine ⟨h.1 _ ?_, h.2.1, h.2.2 13 1000 true ?_ ?_ ?_⟩
  · norm_num [demoCooldown, demoWarm, demoDetector, MotionDetector.init, demoCooldownInputs,
      MotionDetector.run, MotionDetector.detect_swipe, MotionDetector.can_trigger,
      MotionDetector.trigger, dequeAppend, hx]
  · norm_num [demoWarm, demoDetector, MotionDetector.init]
  · norm_num [MotionDetector.appended, demoCooldown, demoWarm, demoDetector,
      MotionDetector.init, demoCooldownInputs, MotionDetector.run, MotionDetector.detect_swipe,
      MotionDetector.can_trigger, MotionDetector.trigger, dequeAppend, hx]
  · norm_num [MotionDetector.delta, MotionDetector.appended, demoCooldown, demoWarm,
      demoDetector, MotionDetector.init, demoCooldownInputs, MotionDetector.run,
      MotionDetector.detect_swipe, MotionDetector.can_trigger, MotionDetector.trigger,
      dequeAppend, hx]

/-- C8 (amended): the status query is side-effect-free and reports `"READY"`
when the state is `READY`; otherwise it reports the string
`"Ready in <remaining>s"` where `<remaining>` is
`max(0, debounce_time − (now − last_trigger_time))` rounded to one decimal
(Python renders the non-positive case as the integer `0`). -/
theorem status_query (d : MotionDetector) (now : Rat) :
    (d.get_status now).2 = d
    ∧ (d.state = "READY" → (d.get_status now).1 = "READY")
    ∧ (d.state ≠ "READY" →
        (d.get_status now).1
          = "Ready in "
            ++ formatRemain
                (round (10 * max 0 (d.debounce_time - (now - d.last_trigger_time))))
            ++ "s") := by
  refine ⟨?_, ?_, ?_⟩
  · by_cases hR : d.state = "READY" <;> simp [MotionDetector.get_status, hR]
  · intro hR
    simp [MotionDetector.get_status, hR]
  · intro hR
    simp only [MotionDetector.get_status, if_neg hR]
    rw [formatRemain_max_comm]

theorem status_query_witness :
    (demoDetector.get_status 0).1 = "READY"
    ∧ (demoStatusCooldown.get_status 1).2 = demoStatusCooldown
    ∧ (demoStatusCooldown.get_status 1).1
        = "Ready in "
          ++ formatRemain
              (round (10 * max 0 (demoStatusCooldown.debounce_time
                - (1 - demoStatusCooldown.last_trigger_time))))
          ++ "s" :=
  ⟨(status_query demoDetector 0).2.1 rfl,
   (status_query demoStatusCooldown 1).1,
   (status_query demoStatusCooldown 1).2.2 (by decide)⟩

/-- C8, the claim as frozen: in cooldown the status string is claimed to read
`"ready again in <remaining> seconds"`; at a concrete cooldown state the code
produces `"Ready in 1.0s"` instead. -/
theorem status_string_counterexample :
    (demoStatusCooldown.get_status 1).1 = "Ready in 1.0s"
    ∧ (demoStatusCooldown.get_status 1).1 ≠ "ready again in 1.0 seconds" := by
  have hx : ("COOLDOWN" : String) ≠ "READY" := by decide
  have h : (demoStatusCooldown.get_status 1).1 = "Ready in 1.0s" := by
    norm_num [demoStatusCooldown, demoDetector, MotionDetector.init,
      MotionDetector.get_status, formatRemain, hx]
    decide
  exact ⟨h, by rw [h]; decide⟩

/-- C9: the lazy `COOLDOWN → READY` transition is never performed by the
status query (which returns the detector unchanged) nor by a `detect_swipe`
call whose buffer fails the minimum-sample or threshold test; consequently,
in `COOLDOWN` with the debounce time fully elapsed, the stored state is still
`COOLDOWN` and the status query reports a remaining time of `0` rather than
`READY`. -/
theorem lazy_transition_property (d : MotionDetector) (now : Rat) (x : Int) (b : Bool)
    (hq : (d.appended x).length < 5 ∨ |d.delta x| < d.min_distance) :
    (d.get_status now).2 = d
    ∧ (d.detect_swipe now x b).2.state = d.state
    ∧ (d.state = "COOLDOWN" → d.debounce_time < now - d.last_trigger_time →
        (d.get_status now).1 = "Ready in 0s" ∧ (d.get_status now).1 ≠ "READY") := by
  refine ⟨?_, ?_, ?_⟩
  · by_cases hR : d.state = "READY" <;> simp [MotionDetector.get_status, hR]
  · rw [detect_swipe_reject d now x b hq]
  · intro hs ht
    have hR : ¬ (d.state = "READY") := by simp [hs]
    have h0 : round (10 * (d.debounce_time - (now - d.last_trigger_time))) ≤ 0 :=
      round_tenths_nonpos (by linarith)
    have hmain : (d.get_status now).1 = "Ready in 0s" := by
      simp only [MotionDetector.get_status, if_neg hR]
      rw [formatRemain, if_pos h0]
      decide
    exact ⟨hmain, by rw [hmain]; decide⟩

theorem lazy_transition_property_witness :
    (demoStatusCooldown.get_status 5).2 = demoStatusCooldown
    ∧ (demoStatusCooldown.detect_swipe 5 0 true).2.state = demoStatusCooldown.state
    ∧ (demoStatusCooldown.get_status 5).1 = "Ready in 0s"
    ∧ (demoStatusCooldown.get_status 5).1 ≠ "READY" := by
  have h := lazy_transition_property demoStatusCooldown 5 0 true (by decide)
  have h3 := h.2.2 rfl
    (by norm_num [demoStatusCooldown, demoDetector, MotionDetector.init])
  exact ⟨h.1, h.2.1, h3.1, h3.2⟩

/-- C10: two calls that differ only in the `is_right_hand` argument leave the
detector in identical post-call states (trajectory, state flag and trigger
time included); handedness influences only the returned direction. -/
theorem handedness_noninterference (d : MotionDetector) (now : Rat) (x : Int)
    (b1 b2 : Bool) :
    (d.detect_swipe now x b1).2 = (d.detect_swipe now x b2).2 := by
  by_cases h1 : (d.appended x).length < 5 ∨ |d.delta x| < d.min_distance
  · rw [detect_swipe_reject d now x b1 h1, detect_swipe_reject d now x b2 h1]
  · push_neg at h1
    by_cases h2 : d.state = "READY" ∨ d.debounce_time < now - d.last_trigger_time
    · rw [detect_swipe_accept d now x b1 h1.1 h1.2 h2,
        detect_swipe_accept d now x b2 h1.1 h1.2 h2]
    · push_neg at h2
      rw [detect_swipe_suppressed d now x b1 h2.1 h2.2,
        detect_swipe_suppressed d now x b2 h2.1 h2.2]
